import Mathlib

/-!
Verification of the TP-Link Kasa control scripts (SillyTavern-TPLink).

Shallow embedding of the Python sources:
* `tplink_protocol.py` — XOR-autokey codec (`encrypt`, `decrypt`) and the
  TCP transport (`send_command`);
* `kasa_controller.py` — the `KasaDevice` facade (`get_state`, command
  shapes) and UDP `discover_devices`;
* `kasa_api.py` — the CLI dispatcher `main`.

Python byte strings are `List Nat` (each element a byte value); Python
`str` is `List Nat` of Unicode code points where the codec is concerned
and Lean `String` where the CLI is concerned.  Exceptions are modelled
with `Except`; operations whose outcome depends on the network take the
environment's behaviour (connect outcome, delivered datagrams, ...) as
an explicit argument.
-/

namespace TPLink

/-! ### Codec (`tplink_protocol.py`, `encrypt` / `decrypt`) -/

/-- Errors that `encrypt` can raise: `struct.error` from
`pack(">I", len(string))` when the length does not fit in 32 bits, and
`ValueError` from `bytes([a])` when the XORed value is not a byte. -/
inductive EncErr where
  | structError
  | valueError
deriving DecidableEq

/-- The four bytes of `pack(">I", n)`, big endian; only used for
`n < 2 ^ 32` (otherwise Python raises `struct.error`). -/
def pack_be32 (n : Nat) : List Nat :=
  [n / 16777216 % 256, n / 65536 % 256, n / 256 % 256, n % 256]

/-- The numeric value of a big-endian byte list (used to read the header
back). -/
def be32_val (l : List Nat) : Nat :=
  l.foldl (fun acc b => acc * 256 + b) 0

/-- The ciphertext loop of `encrypt`: key starts at 171 and is replaced
by each output byte (`a = key ^ ord(char); key = a`).  `bytes([a])`
raises `ValueError` unless `a < 256`, hence the `Option`. -/
def encrypt_loop (key : Nat) : List Nat → Option (List Nat)
  | [] => some []
  | c :: cs =>
    let a := key ^^^ c
    if a < 256 then (encrypt_loop a cs).map (fun r => a :: r) else none

/-- `encrypt` from `tplink_protocol.py`: 4-byte big-endian length header
followed by the autokey ciphertext.  `pack(">I", len(string))` raises
`struct.error` when the length is at least `2 ^ 32`. -/
def encrypt (s : List Nat) : Except EncErr (List Nat) :=
  if s.length < 2 ^ 32 then
    match encrypt_loop 171 s with
    | some body => .ok (pack_be32 s.length ++ body)
    | none => .error .valueError
  else .error .structError

/-- The loop of `decrypt`: `a = key ^ byte; key = byte` (the key becomes
the ciphertext byte, not the plaintext byte). -/
def decrypt_loop (key : Nat) : List Nat → List Nat
  | [] => []
  | b :: bs => (key ^^^ b) :: decrypt_loop b bs

/-- `decrypt` from `tplink_protocol.py`, applied to the payload (the
caller strips the 4-byte header first). -/
def decrypt (data : List Nat) : List Nat :=
  decrypt_loop 171 data

/-- The message of `str(e)` for the two `encrypt` exceptions. -/
def EncErr.msg : EncErr → String
  | .structError => "\x27I\x27 format requires 0 <= number <= 4294967295"
  | .valueError => "bytes must be in range(0, 256)"

/-! ### JSON values and the fragments of Python semantics the scripts use -/

/-- Values produced by `json.loads` (floats never arise in the claims and
are left out of the model). -/
inductive JVal where
  | jnull
  | jbool (b : Bool)
  | jnum (n : Int)
  | jstr (s : String)
  | jarr (xs : List JVal)
  | jobj (fs : List (String × JVal))

/-- Python exceptions the modelled code can raise. -/
inductive PyErr where
  | keyError (k : String)
  | typeError (m : String)
  | valueError (m : String)
  | attrError (m : String)
deriving DecidableEq

/-- `str(e)` for a modelled Python exception (as printed by the CLI
handler). -/
def PyErr.msg : PyErr → String
  | .keyError k => "\x27" ++ k ++ "\x27"
  | .typeError m => m
  | .valueError m => m
  | .attrError m => m

/-- The Python type name of a JSON value, used in error messages. -/
def JVal.pyType : JVal → String
  | .jnull => "NoneType"
  | .jbool _ => "bool"
  | .jnum _ => "int"
  | .jstr _ => "str"
  | .jarr _ => "list"
  | .jobj _ => "dict"

/-- Python subscript `x[k]` with a string key: a dict lookup raising
`KeyError` when the key is missing; any non-dict raises `TypeError`. -/
def JVal.getKey : JVal → String → Except PyErr JVal
  | .jobj fs, k =>
    match fs.find? (fun p => p.1 == k) with
    | some p => .ok p.2
    | none => .error (.keyError k)
  | .jstr _, _ => .error (.typeError "string indices must be integers")
  | .jarr _, _ =>
    .error (.typeError "list indices must be integers or slices, not str")
  | v, _ =>
    .error (.typeError ("\x27" ++ v.pyType ++ "\x27 object is not subscriptable"))

/-- Python `==` between a JSON value and an int literal.  `bool` is an
`int` subclass in Python, so `True == 1` and `False == 0` hold. -/
def pyEqInt : JVal → Int → Bool
  | .jnum n, m => n == m
  | .jbool b, m => (if b then (1 : Int) else 0) == m
  | _, _ => false

/-- Does the second list start with the first? -/
def listLeads : List Char → List Char → Bool
  | [], _ => true
  | _ :: _, [] => false
  | a :: as, b :: bs => a == b && listLeads as bs

/-- Is the second list a contiguous run of the first? -/
def listHasSub : List Char → List Char → Bool
  | [], n => listLeads n []
  | a :: t, n => listLeads n (a :: t) || listHasSub t n

/-- Python `needle in hay` for strings (substring test). -/
def pyInStr (needle hay : String) : Bool :=
  listHasSub hay.toList needle.toList

/-- Python `"error" in x`: key test on dicts, substring test on strings,
membership on lists, `TypeError` otherwise. -/
def pyHasError : JVal → Except PyErr Bool
  | .jobj fs => .ok (fs.any (fun p => p.1 == "error"))
  | .jstr s => .ok (pyInStr "error" s)
  | .jarr xs =>
    .ok (xs.any (fun v => match v with | .jstr s => s == "error" | _ => false))
  | v =>
    .error (.typeError ("argument of type \x27" ++ v.pyType ++ "\x27 is not iterable"))

/-- Python `x.get(k)` (default `None`); non-dicts raise
`AttributeError`. -/
def pyGet : JVal → String → Except PyErr JVal
  | .jobj fs, k =>
    match fs.find? (fun p => p.1 == k) with
    | some p => .ok p.2
    | none => .ok .jnull
  | v, _ =>
    .error (.attrError ("\x27" ++ v.pyType ++ "\x27 object has no attribute \x27get\x27"))

/-- The error dictionaries built throughout the scripts. -/
def errObj (m : String) : JVal :=
  .jobj [("error", .jstr m)]

/-! ### Transport (`tplink_protocol.py`, `send_command`) -/

/-- Outcome of `sock.connect` (and `sock.send`). -/
inductive ConnectEv where
  | accept
  | timeout
  | sockErr (m : String)

/-- Outcome of `sock.recv(4096)`. -/
inductive RecvEv where
  | deliver (data : List Nat)
  | timeout
  | sockErr (m : String)

/-- The network behaviour one `send_command` call observes. -/
structure NetEnv where
  conn : ConnectEv
  rcv : RecvEv

/-- `send_command` from `tplink_protocol.py`.  `loads` stands for
`json.loads` (standard library), `cmdTxt` for the `json.dumps` text of
the command.  The Python `try` block catches `socket.timeout`,
`socket.error`, `json.JSONDecodeError` and finally every `Exception`,
so the model returns a `JVal` in every case. -/
def send_command (loads : List Nat → Except String JVal) (env : NetEnv)
    (cmdTxt : List Nat) : JVal :=
  match encrypt cmdTxt with
  | .error e => errObj ("Unexpected error: " ++ e.msg)
  | .ok _ =>
    match env.conn with
    | .timeout => errObj "Connection timeout"
    | .sockErr m => errObj ("Socket error: " ++ m)
    | .accept =>
      match env.rcv with
      | .timeout => errObj "Connection timeout"
      | .sockErr m => errObj ("Socket error: " ++ m)
      | .deliver data =>
        match loads (decrypt (data.drop 4)) with
        | .error m => errObj ("JSON decode error: " ++ m)
        | .ok j => j

/-! ### Device facade (`kasa_controller.py`) -/

/-- `{"system": {"get_sysinfo": {}}}` (sent by `get_info`). -/
def sysinfoCmd : JVal :=
  .jobj [("system", .jobj [("get_sysinfo", .jobj [])])]

/-- `{"system": {"set_relay_state": {"state": s}}}` (sent by
`turn_on` with `s = 1`, `turn_off` with `s = 0`). -/
def setRelayCmd (s : Int) : JVal :=
  .jobj [("system", .jobj [("set_relay_state", .jobj [("state", .jnum s)])])]

/-- `{"emeter": {"get_realtime": {}}}`. -/
def emeterCmd : JVal :=
  .jobj [("emeter", .jobj [("get_realtime", .jobj [])])]

/-- `{"system": {"set_led_off": {"off": 0|1}}}` (inverted flag). -/
def setLedCmd (state : Bool) : JVal :=
  .jobj [("system", .jobj [("set_led_off",
    .jobj [("off", .jnum (if state then 0 else 1))])])]

/-- `{"system": {"reboot": {"delay": d}}}`. -/
def rebootCmd (delay : Int) : JVal :=
  .jobj [("system", .jobj [("reboot", .jobj [("delay", .jnum delay)])])]

/-- `info["system"]["get_sysinfo"]["relay_state"]` inside
`KasaDevice.get_state`. -/
def sysPath (info : JVal) : Except PyErr JVal :=
  match info.getKey "system" with
  | .error e => .error e
  | .ok s =>
    match s.getKey "get_sysinfo" with
    | .error e => .error e
    | .ok g => g.getKey "relay_state"

/-- `KasaDevice.get_state` applied to the mapping `get_info` returned:
error mappings pass through; otherwise the relay state is read under a
`try`/`except KeyError`, so a missing key yields the parse-error mapping
while a `TypeError` (non-dict on the path) propagates. -/
def get_state (info : JVal) : Except PyErr JVal :=
  match pyHasError info with
  | .error e => .error e
  | .ok true => .ok info
  | .ok false =>
    match sysPath info with
    | .ok v =>
      .ok (.jobj [("state", .jstr (if pyEqInt v 1 then "on" else "off")),
                  ("relay_state", v)])
    | .error (.keyError _) =>
      .ok (errObj "Could not parse relay state from response")
    | .error e => .error e

/-! ### Discovery (`kasa_controller.py`, `discover_devices`) -/

/-- One iteration's outcome of `sock.recvfrom(4096)` inside the
collection loop. -/
inductive RecvOutcome where
  | datagram (payload : List Nat) (sender : String)
  | timeout
  | sockErr (m : String)

/-- Is the event a non-timeout socket-level error? -/
def isErrEv : RecvOutcome → Bool
  | .sockErr _ => true
  | _ => false

/-- `set.add`: the discovered set, modelled as a duplicate-free list. -/
def setAdd (s : List String) (a : String) : List String :=
  if a ∈ s then s else s ++ [a]

/-- The collection loop: datagrams longer than 50 bytes record their
sender, `socket.timeout` continues, and any other exception breaks out
of the loop (returning what was collected so far). -/
def collectLoop (acc : List String) : List RecvOutcome → List String
  | [] => acc
  | .datagram p a :: rest =>
    collectLoop (if p.length > 50 then setAdd acc a else acc) rest
  | .timeout :: rest => collectLoop acc rest
  | .sockErr _ :: _ => acc

/-- What `discover_devices` returns: a list of addresses or the
`{"error": ...}` dictionary. -/
inductive DiscResult where
  | addrs (l : List String)
  | errMap (m : String)

/-- Outcome of the socket setup (creation, options, bind, sends) that
precedes the collection loop. -/
inductive SetupEv where
  | setupOk
  | setupFail (m : String)

/-- `discover_devices` from `kasa_controller.py`: a setup failure is
caught by the outer handler and becomes an error mapping; otherwise the
collection loop runs over the receive events of the listening window
and the collected list is returned — also when the loop was aborted by
a socket error (`except Exception: break`). -/
def discover_devices : SetupEv → List RecvOutcome → DiscResult
  | .setupFail m, _ => .errMap ("Discovery failed: " ++ m)
  | .setupOk, trace => .addrs (collectLoop [] trace)

/-! ### CLI dispatcher (`kasa_api.py`, `main`) -/

/-- The usage dictionary printed when no command is given. -/
def usageObj : JVal :=
  .jobj [("error", .jstr "No command specified"),
         ("usage", .jstr "kasa_api.py <command> [args...]"),
         ("commands", .jobj [
           ("discover", .jstr "Discover devices on network"),
           ("info", .jstr "Get device info (requires ip)"),
           ("state", .jstr "Get device state (requires ip)"),
           ("on", .jstr "Turn device on (requires ip)"),
           ("off", .jstr "Turn device off (requires ip)"),
           ("toggle", .jstr "Toggle device state (requires ip)"),
           ("emeter", .jstr "Get energy meter data (requires ip)"),
           ("led", .jstr "Set LED state (requires ip, state)"),
           ("reboot", .jstr "Reboot device (requires ip)")])]

/-- `{"error": "IP address required"}`. -/
def ipReqObj : JVal :=
  errObj "IP address required"

/-- ASCII lowering of one character (enough for the CLI verbs). -/
def lowerChar (c : Char) : Char :=
  if 65 ≤ c.toNat && c.toNat ≤ 90 then Char.ofNat (c.toNat + 32) else c

/-- Python `s.lower()` (the CLI only lowercases ASCII verbs). -/
def pyLower (s : String) : String :=
  ⟨s.data.map lowerChar⟩

/-- Accumulator pass over decimal digits. -/
def digitsOf (acc : Nat) : List Char → Option Nat
  | [] => some acc
  | c :: cs => if c.isDigit then digitsOf (acc * 10 + (c.toNat - 48)) cs else none

/-- Python `int(s)` for plain decimal literals with an optional sign
(raising `ValueError`, modelled by `none`, on anything else). -/
def pyInt (s : String) : Option Int :=
  match s.data with
  | [] => none
  | '-' :: c :: cs =>
    if c.isDigit then (digitsOf 0 (c :: cs)).map (fun n => -(n : Int)) else none
  | '+' :: c :: cs =>
    if c.isDigit then (digitsOf 0 (c :: cs)).map (fun n => (n : Int)) else none
  | c :: cs =>
    if c.isDigit then (digitsOf 0 (c :: cs)).map (fun n => (n : Int)) else none

/-- The body of `main`'s `try` block.  `resp k` is the response the
`k`-th `send_command` call of the branch returns, `discRes` the value
`discover_devices` returned (as printed).  The result pairs the printed
JSON object with the exit code, alongside the list of commands sent to
the device, in order. -/
def mainBody (resp : Nat → JVal) (discRes : JVal) (argv : List String) :
    (Except PyErr (JVal × Nat)) × List JVal :=
  let cmd := pyLower (argv.getD 1 "")
  if cmd == "discover" then
    if argv.length > 2 then
      match pyInt (argv.getD 2 "") with
      | none =>
        (.error (.valueError ("invalid literal for int() with base 10: \x27" ++
          argv.getD 2 "" ++ "\x27")), [])
      | some _ => (.ok (.jobj [("devices", discRes)], 0), [])
    else (.ok (.jobj [("devices", discRes)], 0), [])
  else if cmd == "info" then
    if argv.length < 3 then (.ok (ipReqObj, 1), [])
    else (.ok (resp 0, 0), [sysinfoCmd])
  else if cmd == "state" then
    if argv.length < 3 then (.ok (ipReqObj, 1), [])
    else
      match get_state (resp 0) with
      | .error e => (.error e, [sysinfoCmd])
      | .ok r => (.ok (r, 0), [sysinfoCmd])
  else if cmd == "on" then
    if argv.length < 3 then (.ok (ipReqObj, 1), [])
    else
      match get_state (resp 1) with
      | .error e => (.error e, [setRelayCmd 1, sysinfoCmd])
      | .ok st =>
        (.ok (.jobj [("result", resp 0), ("state", st)], 0),
         [setRelayCmd 1, sysinfoCmd])
  else if cmd == "off" then
    if argv.length < 3 then (.ok (ipReqObj, 1), [])
    else
      match get_state (resp 1) with
      | .error e => (.error e, [setRelayCmd 0, sysinfoCmd])
      | .ok st =>
        (.ok (.jobj [("result", resp 0), ("state", st)], 0),
         [setRelayCmd 0, sysinfoCmd])
  else if cmd == "toggle" then
    if argv.length < 3 then (.ok (ipReqObj, 1), [])
    else
      match get_state (resp 0) with
      | .error e => (.error e, [sysinfoCmd])
      | .ok current =>
        match pyHasError current with
        | .error e => (.error e, [sysinfoCmd])
        | .ok true => (.ok (current, 1), [sysinfoCmd])
        | .ok false =>
          match pyGet current "relay_state" with
          | .error e => (.error e, [sysinfoCmd])
          | .ok rv =>
            let c2 := if pyEqInt rv 1 then setRelayCmd 0 else setRelayCmd 1
            match get_state (resp 2) with
            | .error e => (.error e, [sysinfoCmd, c2, sysinfoCmd])
            | .ok st =>
              (.ok (.jobj [("result", resp 1), ("state", st)], 0),
               [sysinfoCmd, c2, sysinfoCmd])
  else if cmd == "emeter" then
    if argv.length < 3 then (.ok (ipReqObj, 1), [])
    else (.ok (resp 0, 0), [emeterCmd])
  else if cmd == "led" then
    if argv.length < 4 then
      (.ok (errObj "IP address and state (on/off) required", 1), [])
    else
      let st := ["on", "1", "true"].contains (pyLower (argv.getD 3 ""))
      (.ok (resp 0, 0), [setLedCmd st])
  else if cmd == "reboot" then
    if argv.length < 3 then (.ok (ipReqObj, 1), [])
    else if argv.length > 3 then
      match pyInt (argv.getD 3 "") with
      | none =>
        (.error (.valueError ("invalid literal for int() with base 10: \x27" ++
          argv.getD 3 "" ++ "\x27")), [])
      | some d => (.ok (resp 0, 0), [rebootCmd d])
    else (.ok (resp 0, 0), [rebootCmd 1])
  else (.ok (errObj ("Unknown command: " ++ cmd), 1), [])

/-- `main` from `kasa_api.py`: fewer than two `argv` entries prints the
usage dictionary and exits 1; otherwise the body runs and any raised
exception is converted by the `except Exception` handler into an error
mapping with exit code 1.  (`sys.exit(1)` raises `SystemExit`, which
that handler does not catch, so explicit exits keep their code.) -/
def mainCLI (resp : Nat → JVal) (discRes : JVal) (argv : List String) :
    JVal × Nat × List JVal :=
  if argv.length < 2 then (usageObj, 1, [])
  else
    match mainBody resp discRes argv with
    | (.ok (p, c), log) => (p, c, log)
    | (.error e, log) => (errObj e.msg, 1, log)

/-! ### Concrete fixtures used by witnesses and counterexamples -/

/-- A well-formed `get_sysinfo` response whose relay state is `v`. -/
def sysinfoResp (v : JVal) : JVal :=
  .jobj [("system", .jobj [("get_sysinfo", .jobj [("relay_state", v)])])]

/-- A device answering every call with a connection-timeout error
mapping (what `send_command` yields on an unreachable address). -/
def devTimeout : Nat → JVal :=
  fun _ => errObj "Connection timeout"

/-- A device that is on (relay 1) before toggling and off after. -/
def devOn : Nat → JVal :=
  fun k =>
    if k == 0 then sysinfoResp (.jnum 1)
    else if k == 2 then sysinfoResp (.jnum 0)
    else .jobj [("system", .jobj [("set_relay_state", .jobj [("err_code", .jnum 0)])])]

/-- A `json.loads` stand-in that fails on every text. -/
def loadsFail : List Nat → Except String JVal :=
  fun _ => .error "Expecting value: line 1 column 1 (char 0)"

/-- A receive trace: one genuine reply, then a socket error, then a
reply that the aborted loop never sees. -/
def discTraceErr : List RecvOutcome :=
  [.datagram (List.replicate 60 171) "192.168.1.50",
   .sockErr "recv failed",
   .datagram (List.replicate 70 171) "192.168.1.51"]

/-- A receive trace with a genuine reply, a timeout, a short echo and a
duplicate reply. -/
def discTraceOk : List RecvOutcome :=
  [.datagram (List.replicate 233 171) "192.168.1.7",
   .timeout,
   .datagram (List.replicate 33 171) "192.168.1.9",
   .datagram (List.replicate 233 171) "192.168.1.7"]

end TPLink

namespace TPLink

/-! ### Helper lemmas -/

theorem xor_lt_256 {a b : Nat} (ha : a < 256) (hb : b < 256) :
    a ^^^ b < 256 := by
  have h : a ^^^ b < 2 ^ 8 := Nat.bitwise_lt (by omega) (by omega)
  simpa using h

theorem encrypt_loop_roundtrip (s : List Nat) :
    ∀ key : Nat, key < 256 → (∀ c ∈ s, c < 256) →
      ∃ b, encrypt_loop key s = some b ∧ decrypt_loop key b = s := by
  induction s with
  | nil => intro key _ _; exact ⟨[], rfl, rfl⟩
  | cons c cs ih =>
    intro key hk hc
    have hcc : c < 256 := hc c (List.mem_cons_self c cs)
    have ha : key ^^^ c < 256 := xor_lt_256 hk hcc
    obtain ⟨b, hb, hd⟩ := ih (key ^^^ c) ha (fun x hx => hc x (List.mem_cons_of_mem c hx))
    refine ⟨(key ^^^ c) :: b, ?_, ?_⟩
    · simp only [encrypt_loop, if_pos ha, hb]; rfl
    · simp only [decrypt_loop, hd, List.cons.injEq, and_true]
      rw [← Nat.xor_assoc, Nat.xor_self, Nat.zero_xor]

theorem encrypt_loop_length (s : List Nat) :
    ∀ key b, encrypt_loop key s = some b → b.length = s.length := by
  induction s with
  | nil =>
    intro key b hb
    simp only [encrypt_loop] at hb
    injection hb with h
    rw [← h]
  | cons c cs ih =>
    intro key b hb
    simp only [encrypt_loop] at hb
    by_cases ha : key ^^^ c < 256
    · rw [if_pos ha] at hb
      cases hb' : encrypt_loop (key ^^^ c) cs with
      | none => rw [hb'] at hb; exact absurd hb (by simp)
      | some r =>
        rw [hb'] at hb
        injection hb with h
        rw [← h]
        simp [ih (key ^^^ c) r hb']
    · rw [if_neg ha] at hb
      exact absurd hb (by simp)

theorem encrypt_loop_fail (s : List Nat) :
    ∀ key : Nat, key < 256 → (∃ c ∈ s, 256 ≤ c) → encrypt_loop key s = none := by
  induction s with
  | nil =>
    intro key _ hex
    obtain ⟨c, hc, _⟩ := hex
    exact absurd hc (List.not_mem_nil c)
  | cons c cs ih =>
    intro key hk hex
    by_cases hc : c < 256
    · have ha : key ^^^ c < 256 := xor_lt_256 hk hc
      obtain ⟨x, hx, hxge⟩ := hex
      rcases List.mem_cons.mp hx with hxc | hxs
      · omega
      · simp only [encrypt_loop, if_pos ha, ih (key ^^^ c) ha ⟨x, hxs, hxge⟩]
        rfl
    · have hna : ¬ key ^^^ c < 256 := by
        intro hlt
        have hc' : key ^^^ (key ^^^ c) < 256 := xor_lt_256 hk hlt
        rw [Nat.xor_cancel_left] at hc'
        exact hc hc'
      simp only [encrypt_loop, if_neg hna]

theorem be32_val_pack (n : Nat) (h : n < 2 ^ 32) :
    be32_val (pack_be32 n) = n := by
  simp only [be32_val, pack_be32, List.foldl]
  omega

/-! ### Claims -/

/-- C1 (amended): for every string whose characters all have code points
0-255 and whose length is below `2 ^ 32`, `encrypt` succeeds and
decrypting the frame body after the 4-byte header yields the input
exactly (`decrypt` rekeys on the ciphertext byte). -/
theorem C1_codec_roundtrip (s : List Nat) (hchar : ∀ c ∈ s, c < 256)
    (hlen : s.length < 2 ^ 32) :
    ∃ r, encrypt s = .ok r ∧ decrypt (r.drop 4) = s := by
  obtain ⟨b, hb, hd⟩ := encrypt_loop_roundtrip s 171 (by omega) hchar
  refine ⟨pack_be32 s.length ++ b, ?_, ?_⟩
  · simp only [encrypt, if_pos hlen, hb]
  · have hdrop : (pack_be32 s.length ++ b).drop 4 = b := by
      simp [pack_be32]
    rw [decrypt, hdrop]
    exact hd

/-- C1 counterexample: a string of `2 ^ 32` NUL characters has only
code points 0-255, yet `encrypt` raises `struct.error` from
`pack(">I", len(string))`, so the round trip of the claim does not even
produce a value there. -/
theorem C1_codec_roundtrip_cex :
    (∀ c ∈ List.replicate (2 ^ 32) (0 : Nat), c < 256) ∧
      encrypt (List.replicate (2 ^ 32) 0) = .error .structError := by
  constructor
  · intro c hc
    have := List.eq_of_mem_replicate hc
    omega
  · unfold encrypt
    rw [List.length_replicate, if_neg (lt_irrefl _)]

/-- C1 witness: the round trip at the concrete plaintext
`[10, 200, 0]`. -/
theorem C1_codec_roundtrip_witness :
    (∀ c ∈ [10, 200, 0], c < 256) ∧ ([10, 200, 0] : List Nat).length < 2 ^ 32 ∧
      ∃ r, encrypt [10, 200, 0] = .ok r ∧ decrypt (r.drop 4) = [10, 200, 0] :=
  ⟨by decide, by decide, C1_codec_roundtrip [10, 200, 0] (by decide) (by decide)⟩

/-- C6: whenever `encrypt` accepts a plaintext, the frame is the 4-byte
big-endian header holding the plaintext length followed by exactly that
many ciphertext bytes. -/
theorem C6_frame_header (s r : List Nat) (h : encrypt s = .ok r) :
    ∃ body, r = pack_be32 s.length ++ body ∧ body.length = s.length ∧
      (pack_be32 s.length).length = 4 ∧ be32_val (pack_be32 s.length) = s.length := by
  rw [encrypt] at h
  by_cases hlen : s.length < 2 ^ 32
  · rw [if_pos hlen] at h
    cases hb : encrypt_loop 171 s with
    | none => rw [hb] at h; cases h
    | some body =>
      rw [hb] at h
      injection h with h
      exact ⟨body, h.symm, encrypt_loop_length s 171 body hb, rfl,
        be32_val_pack s.length hlen⟩
  · rw [if_neg hlen] at h
    cases h

/-- C6 witness: `encrypt ""` is exactly the four zero bytes (header 0,
empty body), and the header decomposition holds there. -/
theorem C6_frame_header_witness :
    encrypt ([] : List Nat) = .ok [0, 0, 0, 0] ∧
      ∃ body, ([0, 0, 0, 0] : List Nat) = pack_be32 0 ++ body ∧ body.length = 0 ∧
        (pack_be32 0).length = 4 ∧ be32_val (pack_be32 0) = 0 :=
  ⟨rfl, C6_frame_header [] [0, 0, 0, 0] rfl⟩

/-- C9 (amended): for strings shorter than `2 ^ 32`, `encrypt` raises
`ValueError` exactly when some character has a code point above 255; on
strings of code points 0-255 it is total.  (At length `2 ^ 32` and
beyond it instead raises `struct.error`, whatever the characters.) -/
theorem C9_encrypt_partiality (s : List Nat) (hlen : s.length < 2 ^ 32) :
    ((∃ c ∈ s, 256 ≤ c) → encrypt s = .error .valueError) ∧
      ((∀ c ∈ s, c < 256) → ∃ r, encrypt s = .ok r) := by
  constructor
  · intro hex
    rw [encrypt, if_pos hlen, encrypt_loop_fail s 171 (by omega) hex]
  · intro hchar
    obtain ⟨b, hb, _⟩ := encrypt_loop_roundtrip s 171 (by omega) hchar
    exact ⟨pack_be32 s.length ++ b, by rw [encrypt, if_pos hlen, hb]⟩

/-- C9 counterexample: a string of `2 ^ 32` copies of the Latin-1
character 97 makes `encrypt` raise `struct.error`, so `encrypt` is not
total on all strings of code points 0-255 (and the failure there is not
a `ValueError`). -/
theorem C9_encrypt_partiality_cex :
    (∀ c ∈ List.replicate (2 ^ 32) (97 : Nat), c < 256) ∧
      encrypt (List.replicate (2 ^ 32) 97) = .error .structError := by
  constructor
  · intro c hc
    have := List.eq_of_mem_replicate hc
    omega
  · unfold encrypt
    rw [List.length_replicate, if_neg (lt_irrefl _)]

/-- C9 witness: `encrypt` raises `ValueError` at the one-character
string with code point 300. -/
theorem C9_encrypt_partiality_witness :
    ([300] : List Nat).length < 2 ^ 32 ∧ encrypt [300] = .error .valueError :=
  ⟨by decide, (C9_encrypt_partiality [300] (by decide)).1 (by decide)⟩


theorem pyEqInt_zero_ne_one (v : JVal) (h : pyEqInt v 0 = true) :
    pyEqInt v 1 = false := by
  cases v with
  | jnum n =>
    simp only [pyEqInt, beq_iff_eq] at h
    simp only [pyEqInt, beq_eq_false_iff_ne]
    omega
  | jbool b => cases b <;> simp_all [pyEqInt]
  | jnull => simp [pyEqInt]
  | jstr s => simp [pyEqInt]
  | jarr xs => simp [pyEqInt]
  | jobj fs => simp [pyEqInt]

/-- C2: `send_command` returns a mapping in every environment: each
failure event (connect or read timeout, socket error, JSON parse
failure, and even a codec exception) is converted into an
`{"error": ...}` mapping with a human-readable message, a successful
exchange returns the parsed JSON, and every result is one of the
two. -/
theorem C2_transport_totality (loads : List Nat → Except String JVal)
    (env : NetEnv) (cmd : List Nat) :
    ((∀ e, encrypt cmd = .error e →
        send_command loads env cmd = errObj ("Unexpected error: " ++ e.msg)) ∧
      (∀ enc, encrypt cmd = .ok enc →
        (env.conn = .timeout →
          send_command loads env cmd = errObj "Connection timeout") ∧
        (∀ m, env.conn = .sockErr m →
          send_command loads env cmd = errObj ("Socket error: " ++ m)) ∧
        (env.conn = .accept →
          (env.rcv = .timeout →
            send_command loads env cmd = errObj "Connection timeout") ∧
          (∀ m, env.rcv = .sockErr m →
            send_command loads env cmd = errObj ("Socket error: " ++ m)) ∧
          (∀ data m, env.rcv = .deliver data →
            loads (decrypt (data.drop 4)) = .error m →
            send_command loads env cmd = errObj ("JSON decode error: " ++ m)) ∧
          (∀ data j, env.rcv = .deliver data →
            loads (decrypt (data.drop 4)) = .ok j →
            send_command loads env cmd = j)))) ∧
      ((∃ m, send_command loads env cmd = errObj m) ∨
        (∃ data j, env.rcv = .deliver data ∧
          loads (decrypt (data.drop 4)) = .ok j ∧
          send_command loads env cmd = j)) := by
  refine ⟨⟨?_, ?_⟩, ?_⟩
  · intro e he
    simp [send_command, he]
  · intro enc henc
    refine ⟨?_, ?_, ?_⟩
    · intro hc; simp [send_command, henc, hc]
    · intro m hc; simp [send_command, henc, hc]
    · intro hc
      refine ⟨?_, ?_, ?_, ?_⟩
      · intro hr; simp [send_command, henc, hc, hr]
      · intro m hr; simp [send_command, henc, hc, hr]
      · intro data m hr hl; simp [send_command, henc, hc, hr, hl]
      · intro data j hr hl; simp [send_command, henc, hc, hr, hl]
  · cases henc : encrypt cmd with
    | error e =>
      exact .inl ⟨"Unexpected error: " ++ e.msg, by simp [send_command, henc]⟩
    | ok enc =>
      cases hc : env.conn with
      | timeout =>
        exact .inl ⟨"Connection timeout", by simp [send_command, henc, hc]⟩
      | sockErr m =>
        exact .inl ⟨"Socket error: " ++ m, by simp [send_command, henc, hc]⟩
      | accept =>
        cases hr : env.rcv with
        | timeout =>
          exact .inl ⟨"Connection timeout", by simp [send_command, henc, hc, hr]⟩
        | sockErr m =>
          exact .inl ⟨"Socket error: " ++ m, by simp [send_command, henc, hc, hr]⟩
        | deliver data =>
          cases hl : loads (decrypt (data.drop 4)) with
          | error m =>
            exact .inl ⟨"JSON decode error: " ++ m,
              by simp [send_command, henc, hc, hr, hl]⟩
          | ok j =>
            exact .inr ⟨data, j, rfl, hl, by simp [send_command, henc, hc, hr, hl]⟩

/-- C2 witness: a connect timeout on the empty command yields the
`Connection timeout` error mapping. -/
theorem C2_transport_totality_witness :
    send_command loadsFail ⟨.timeout, .timeout⟩ [] = errObj "Connection timeout" :=
  ((C2_transport_totality loadsFail ⟨.timeout, .timeout⟩ []).1.2 [0, 0, 0, 0] rfl).1 rfl

/-- C4 (amended): `get_state` maps a present relay value comparing equal
to 1 to `"on"`, equal to 0 to `"off"`, yields the parse-error mapping
when a key on the `system.get_sysinfo.relay_state` path is missing from
its dictionary, and passes an error mapping from `get_info` through
unchanged.  (When an intermediate value on the path is not a
dictionary, `get_state` instead raises `TypeError`, which its
`except KeyError` does not catch — see the counterexample.) -/
theorem C4_get_state_mapping (info v : JVal) (k : String) :
    (pyHasError info = .ok true → get_state info = .ok info) ∧
    (pyHasError info = .ok false → sysPath info = .ok v → pyEqInt v 1 = true →
      get_state info = .ok (.jobj [("state", .jstr "on"), ("relay_state", v)])) ∧
    (pyHasError info = .ok false → sysPath info = .ok v → pyEqInt v 0 = true →
      get_state info = .ok (.jobj [("state", .jstr "off"), ("relay_state", v)])) ∧
    (pyHasError info = .ok false → sysPath info = .error (.keyError k) →
      get_state info = .ok (errObj "Could not parse relay state from response")) := by
  refine ⟨?_, ?_, ?_, ?_⟩
  · intro h; simp [get_state, h]
  · intro h hp he; simp [get_state, h, hp, he]
  · intro h hp he
    simp [get_state, h, hp, pyEqInt_zero_ne_one v he]
  · intro h hp; simp [get_state, h, hp]

/-- C4 counterexample: in the response whose `system` entry is the
number 5, the `relay_state` field is absent, yet `get_state` raises
`TypeError` (uncaught) instead of returning the parse-error mapping. -/
theorem C4_get_state_mapping_cex :
    get_state (.jobj [("system", .jnum 5)]) =
      .error (.typeError "\x27int\x27 object is not subscriptable") := rfl

/-- C4 witness: relay 1 maps to `"on"`, and an error mapping from the
transport is returned unchanged. -/
theorem C4_get_state_mapping_witness :
    get_state (sysinfoResp (.jnum 1)) =
      .ok (.jobj [("state", .jstr "on"), ("relay_state", .jnum 1)]) ∧
    get_state (errObj "Connection timeout") = .ok (errObj "Connection timeout") :=
  ⟨(C4_get_state_mapping (sysinfoResp (.jnum 1)) (.jnum 1) "").2.1 rfl rfl rfl,
   (C4_get_state_mapping (errObj "Connection timeout") .jnull "").1 rfl⟩

/-- C10 (amended): with the relay field present, every value *not equal
to 1 under Python equality* yields `"off"` with the raw value echoed,
and every value equal to 1 under Python equality yields `"on"` — that
is the integer 1 and also the boolean `true`, since Python treats
`True == 1` as true. -/
theorem C10_non_one_off (info v : JVal) (h0 : pyHasError info = .ok false)
    (h1 : sysPath info = .ok v) :
    (pyEqInt v 1 = false →
      get_state info = .ok (.jobj [("state", .jstr "off"), ("relay_state", v)])) ∧
    (pyEqInt v 1 = true →
      get_state info = .ok (.jobj [("state", .jstr "on"), ("relay_state", v)])) := by
  constructor
  · intro he; simp [get_state, h0, h1, he]
  · intro he; simp [get_state, h0, h1, he]

/-- C10 counterexample: the non-integer relay value `true` produces
`{"state": "on"}`, so values other than the integer 1 can produce
`"on"`. -/
theorem C10_non_one_off_cex :
    get_state (sysinfoResp (.jbool true)) =
      .ok (.jobj [("state", .jstr "on"), ("relay_state", .jbool true)]) := rfl

/-- C10 witness: the relay value 2 yields `"off"` with 2 echoed. -/
theorem C10_non_one_off_witness :
    get_state (sysinfoResp (.jnum 2)) =
      .ok (.jobj [("state", .jstr "off"), ("relay_state", .jnum 2)]) :=
  (C10_non_one_off (sysinfoResp (.jnum 2)) (.jnum 2) rfl rfl).1 rfl


theorem collectLoop_break (pre : List RecvOutcome) :
    ∀ acc m post, (pre.all fun e => !isErrEv e) = true →
      collectLoop acc (pre ++ .sockErr m :: post) = collectLoop acc pre := by
  induction pre with
  | nil => intro acc m post _; rfl
  | cons e rest ih =>
    intro acc m post h
    simp only [List.all_cons, Bool.and_eq_true] at h
    cases e with
    | datagram p a =>
      simp only [List.cons_append, collectLoop]
      exact ih _ m post h.2
    | timeout =>
      simp only [List.cons_append, collectLoop]
      exact ih _ m post h.2
    | sockErr m' => simp [isErrEv] at h

theorem mem_setAdd (s : List String) (a b : String) :
    a ∈ setAdd s b ↔ a ∈ s ∨ a = b := by
  unfold setAdd
  by_cases hb : b ∈ s
  · rw [if_pos hb]
    constructor
    · exact fun h => .inl h
    · rintro (h | rfl)
      · exact h
      · exact hb
  · rw [if_neg hb]
    simp

theorem collectLoop_mem (trace : List RecvOutcome) :
    ∀ acc a, (trace.all fun e => !isErrEv e) = true →
      (a ∈ collectLoop acc trace ↔
        a ∈ acc ∨ ∃ p, RecvOutcome.datagram p a ∈ trace ∧ 50 < p.length) := by
  induction trace with
  | nil => intro acc a _; simp [collectLoop]
  | cons e rest ih =>
    intro acc a h
    simp only [List.all_cons, Bool.and_eq_true] at h
    cases e with
    | timeout =>
      rw [show collectLoop acc (.timeout :: rest) = collectLoop acc rest from rfl,
        ih acc a h.2]
      simp
    | sockErr m => simp [isErrEv] at h
    | datagram p b =>
      rw [show collectLoop acc (.datagram p b :: rest) =
        collectLoop (if p.length > 50 then setAdd acc b else acc) rest from rfl]
      by_cases hp : p.length > 50
      · rw [if_pos hp, ih _ a h.2, mem_setAdd]
        constructor
        · rintro ((h1 | rfl) | ⟨q, hq, hql⟩)
          · exact .inl h1
          · exact .inr ⟨p, List.mem_cons_self _ _, hp⟩
          · exact .inr ⟨q, List.mem_cons_of_mem _ hq, hql⟩
        · rintro (h1 | ⟨q, hq, hql⟩)
          · exact .inl (.inl h1)
          · rcases List.mem_cons.mp hq with heq | hmem
            · cases heq
              exact .inl (.inr rfl)
            · exact .inr ⟨q, hmem, hql⟩
      · rw [if_neg hp, ih _ a h.2]
        constructor
        · rintro (h1 | ⟨q, hq, hql⟩)
          · exact .inl h1
          · exact .inr ⟨q, List.mem_cons_of_mem _ hq, hql⟩
        · rintro (h1 | ⟨q, hq, hql⟩)
          · exact .inl h1
          · rcases List.mem_cons.mp hq with heq | hmem
            · cases heq
              exact absurd hql hp
            · exact .inr ⟨q, hmem, hql⟩

/-- C3 (amended): a socket-level error other than a per-receive timeout
aborts the collection loop, but `discover_devices` then returns the
partial address list collected before the error — not an error mapping;
a receive timeout merely continues the loop. -/
theorem C3_discovery_error (pre post : List RecvOutcome) (m : String)
    (h : (pre.all fun e => !isErrEv e) = true) :
    discover_devices .setupOk (pre ++ .sockErr m :: post) =
      .addrs (collectLoop [] pre) ∧
    (∀ acc rest, collectLoop acc (.timeout :: rest) = collectLoop acc rest) :=
  ⟨congrArg DiscResult.addrs (collectLoop_break pre [] m post h),
   fun _ _ => rfl⟩

/-- C3 counterexample: with a 60-byte reply from `192.168.1.50`, then a
socket error, then a 70-byte reply from `192.168.1.51`, the function
returns the partial list `["192.168.1.50"]` — a list, not a mapping
with an `error` key, and without the address received after the
error. -/
theorem C3_discovery_error_cex :
    discover_devices .setupOk discTraceErr = .addrs ["192.168.1.50"] := by
  simp [discover_devices, discTraceErr, collectLoop, setAdd]

/-- C3 witness: the abort equation at a concrete two-event error-free
prelude. -/
theorem C3_discovery_error_witness :
    discover_devices .setupOk
        ([.timeout, .datagram [0] "10.0.0.9"] ++ .sockErr "boom" :: []) =
      .addrs (collectLoop [] [.timeout, .datagram [0] "10.0.0.9"]) ∧
    (∀ acc rest, collectLoop acc (.timeout :: rest) = collectLoop acc rest) :=
  C3_discovery_error [.timeout, .datagram [0] "10.0.0.9"] [] "boom" (by decide)

/-- C5: over an error-free listening window, an address is in the
returned collection exactly when some datagram longer than 50 bytes
arrived from it; datagrams of at most 50 bytes contribute nothing. -/
theorem C5_echo_filter (trace : List RecvOutcome)
    (h : (trace.all fun e => !isErrEv e) = true) :
    ∃ l, discover_devices .setupOk trace = .addrs l ∧
      ∀ a, a ∈ l ↔ ∃ p, RecvOutcome.datagram p a ∈ trace ∧ 50 < p.length := by
  refine ⟨collectLoop [] trace, rfl, fun a => ?_⟩
  rw [collectLoop_mem trace [] a h]
  simp

/-- C5 witness: a window with a 233-byte reply, a timeout, a 33-byte
echo and a duplicate 233-byte reply records exactly the replying
address. -/
theorem C5_echo_filter_witness :
    (discTraceOk.all fun e => !isErrEv e) = true ∧
      ∃ l, discover_devices .setupOk discTraceOk = .addrs l ∧
        ∀ a, a ∈ l ↔
          ∃ p, RecvOutcome.datagram p a ∈ discTraceOk ∧ 50 < p.length :=
  ⟨by decide, C5_echo_filter discTraceOk (by decide)⟩


/-- C7: in the CLI toggle branch, an initial read reporting relay state
1 issues the off-command (`set_relay_state 0`), an initial read
reporting anything else (the `"off"` report) issues the on-command,
both conclude with a fresh state read returned to the caller next to
the command result, and an error mapping from the initial read aborts
with that error and no relay command sent. -/
theorem get_state_sysinfoResp (v : JVal) :
    get_state (sysinfoResp v) =
      .ok (.jobj [("state", .jstr (if pyEqInt v 1 then "on" else "off")),
                  ("relay_state", v)]) := rfl

theorem get_state_errObj (m : String) :
    get_state (errObj m) = .ok (errObj m) := rfl

theorem pyHasError_errObj (m : String) :
    pyHasError (errObj m) = .ok true := rfl

theorem C7_toggle_semantics (resp : Nat → JVal) (d : JVal) (a0 ip : String)
    (v s2 : JVal) (m : String) :
    (resp 0 = sysinfoResp v → pyEqInt v 1 = true → get_state (resp 2) = .ok s2 →
      mainCLI resp d [a0, "toggle", ip] =
        (.jobj [("result", resp 1), ("state", s2)], 0,
         [sysinfoCmd, setRelayCmd 0, sysinfoCmd])) ∧
    (resp 0 = sysinfoResp v → pyEqInt v 1 = false → get_state (resp 2) = .ok s2 →
      mainCLI resp d [a0, "toggle", ip] =
        (.jobj [("result", resp 1), ("state", s2)], 0,
         [sysinfoCmd, setRelayCmd 1, sysinfoCmd])) ∧
    (resp 0 = errObj m →
      mainCLI resp d [a0, "toggle", ip] = (errObj m, 1, [sysinfoCmd])) := by
  refine ⟨?_, ?_, ?_⟩
  · intro h0 he h2
    simp [mainCLI, mainBody, h0, he, h2, get_state_sysinfoResp, pyHasError,
      pyGet, errObj, List.find?, List.any, pyLower, lowerChar]
  · intro h0 he h2
    simp [mainCLI, mainBody, h0, he, h2, get_state_sysinfoResp, pyHasError,
      pyGet, errObj, List.find?, List.any, pyLower, lowerChar]
  · intro h0
    simp [mainCLI, mainBody, h0, get_state_errObj, pyHasError_errObj,
      pyLower, lowerChar]

/-- C7 witness: toggling a device that reports relay 1 sends the
off-command and returns the fresh `"off"` read; toggling one whose
initial read is an error mapping surfaces the error with exit 1 and no
relay command. -/
theorem C7_toggle_semantics_witness :
    mainCLI devOn (.jarr []) ["kasa_api.py", "toggle", "10.0.0.2"] =
      (.jobj [("result", devOn 1),
              ("state", .jobj [("state", .jstr "off"), ("relay_state", .jnum 0)])],
       0, [sysinfoCmd, setRelayCmd 0, sysinfoCmd]) ∧
    mainCLI devTimeout (.jarr []) ["kasa_api.py", "toggle", "10.0.0.2"] =
      (errObj "Connection timeout", 1, [sysinfoCmd]) :=
  ⟨(C7_toggle_semantics devOn (.jarr []) "kasa_api.py" "10.0.0.2" (.jnum 1)
      (.jobj [("state", .jstr "off"), ("relay_state", .jnum 0)]) "").1 rfl rfl rfl,
   (C7_toggle_semantics devTimeout (.jarr []) "kasa_api.py" "10.0.0.2" .jnull
      .jnull "Connection timeout").2.2 rfl⟩

/-- C8 (amended): the CLI exits 1 when no command is given, when a
required argument is missing, when the verb is unknown, and when the
dispatch body raises; but a branch such as `info` completes with exit
code 0 whatever mapping the device operation returned — an
error-carrying mapping is printed with exit code 0, so the exit code is
not 1 on every error. -/
theorem C8_exit_codes (resp : Nat → JVal) (d : JVal) (a0 ip c : String)
    (e : PyErr) :
    mainCLI resp d [] = (usageObj, 1, []) ∧
    mainCLI resp d [a0] = (usageObj, 1, []) ∧
    mainCLI resp d [a0, "info"] = (ipReqObj, 1, []) ∧
    (pyLower c ∉ (["discover", "info", "state", "on", "off", "toggle",
        "emeter", "led", "reboot"] : List String) →
      mainCLI resp d [a0, c, ip] =
        (errObj ("Unknown command: " ++ pyLower c), 1, [])) ∧
    (∀ argv log, mainBody resp d argv = (.error e, log) → 2 ≤ argv.length →
      mainCLI resp d argv = (errObj e.msg, 1, log)) ∧
    (mainCLI resp d [a0, "info", ip]).2.1 = 0 := by
  refine ⟨rfl, rfl, rfl, ?_, ?_, rfl⟩
  · intro h
    simp only [List.mem_cons, List.mem_singleton, not_or] at h
    obtain ⟨h1, h2, h3, h4, h5, h6, h7, h8, h9, -⟩ := h
    simp [mainCLI, mainBody, List.getD, h1, h2, h3, h4, h5, h6, h7, h8, h9]
  · intro argv log h hlen
    unfold mainCLI
    rw [if_neg (by omega), h]

/-- C8 counterexample: `kasa_api.py info 192.168.1.10` against an
unreachable device prints the `Connection timeout` error mapping and
exits with code 0, not 1. -/
theorem C8_exit_codes_cex :
    mainCLI devTimeout (.jarr []) ["kasa_api.py", "info", "192.168.1.10"] =
      (errObj "Connection timeout", 0, [sysinfoCmd]) := rfl

/-- C8 witness: an unknown verb prints an error mapping and exits 1. -/
theorem C8_exit_codes_witness :
    mainCLI devTimeout (.jarr []) ["kasa_api.py", "frobnicate", "1.2.3.4"] =
      (errObj ("Unknown command: " ++ pyLower "frobnicate"), 1, []) :=
  (C8_exit_codes devTimeout (.jarr []) "kasa_api.py" "1.2.3.4" "frobnicate"
    (.typeError "")).2.2.2.1 (by decide)

end TPLink
